import Mathlib

/-!
Shallow embedding of the traefik-proxmox-provider (package `provider`,
file `provider.go`) together with theorems settling the specification
claims about it.

Go `map` values are embedded as association lists: `mapInsert` conses the
new binding in front and `mapLookup` returns the first match, so a later
insert of the same key shadows the earlier one, matching Go map overwrite
semantics.  `uint64` identifiers are embedded as `Nat` (no overflow is
possible for Proxmox VMIDs and none of the code does arithmetic on them),
`time.Duration` as `Int` nanoseconds, and fallible calls as
`Except String`.
-/

namespace Provider

/-- Association-list lookup standing for a Go map read: first match wins
(the most recently inserted binding is in front). -/
def mapLookup (k : String) : List (String × α) → Option α
  | [] => none
  | (k', v) :: m => if k' = k then some v else mapLookup k m

/-- Association-list insert standing for a Go map write `m[k] = v`: the
new binding shadows any previous binding of `k`. -/
def mapInsert (k : String) (v : α) (m : List (String × α)) : List (String × α) :=
  (k, v) :: m

/-- A network address of a workload (`internal.IP`); only the `Address`
field is read by the provider. -/
structure IP where
  address : String
deriving DecidableEq, Repr

/-- A discoverable service (`internal.Service`): numeric workload ID,
display name, directive map extracted from the workload metadata
(`Config`, a Go `map[string]string`), and the resolved addresses. -/
structure Service where
  id : Nat
  name : String
  config : List (String × String)
  ips : List IP
deriving DecidableEq, Repr

/-- `dynamic.Server` of traefik/genconf: one backend endpoint URL. -/
structure Server where
  url : String
deriving DecidableEq, Repr

/-- `dynamic.ServersLoadBalancer`: the fields the provider sets. -/
structure ServersLoadBalancer where
  passHostHeader : Option Bool
  servers : List Server
deriving DecidableEq, Repr

/-- `dynamic.Service`: the provider only ever sets the load balancer. -/
structure DynService where
  loadBalancer : ServersLoadBalancer
deriving DecidableEq, Repr

/-- `dynamic.Router`: the fields the provider sets. -/
structure Router where
  service : String
  rule : String
  priority : Int
deriving DecidableEq, Repr

/-- `dynamic.Middleware`: never populated by this provider, so its fields
are irrelevant here. -/
structure Middleware where
deriving DecidableEq, Repr

/-- `dynamic.ServersTransport`: never populated by this provider. -/
structure ServersTransport where
deriving DecidableEq, Repr

/-- `dynamic.TCPRouter`: never populated by this provider. -/
structure TCPRouter where
deriving DecidableEq, Repr

/-- `dynamic.TCPService`: never populated by this provider. -/
structure TCPService where
deriving DecidableEq, Repr

/-- `dynamic.UDPRouter`: never populated by this provider. -/
structure UDPRouter where
deriving DecidableEq, Repr

/-- `dynamic.UDPService`: never populated by this provider. -/
structure UDPService where
deriving DecidableEq, Repr

/-- `tls.Store`: never populated by this provider. -/
structure TLSStore where
deriving DecidableEq, Repr

/-- `tls.Options`: never populated by this provider. -/
structure TLSOptions where
deriving DecidableEq, Repr

/-- `dynamic.HTTPConfiguration`. -/
structure HTTPConfiguration where
  routers : List (String × Router)
  middlewares : List (String × Middleware)
  services : List (String × DynService)
  serversTransports : List (String × ServersTransport)
deriving DecidableEq, Repr

/-- `dynamic.TCPConfiguration`. -/
structure TCPConfiguration where
  routers : List (String × TCPRouter)
  services : List (String × TCPService)
deriving DecidableEq, Repr

/-- `dynamic.TLSConfiguration`. -/
structure TLSConfiguration where
  stores : List (String × TLSStore)
  options : List (String × TLSOptions)
deriving DecidableEq, Repr

/-- `dynamic.UDPConfiguration`. -/
structure UDPConfiguration where
  routers : List (String × UDPRouter)
  services : List (String × UDPService)
deriving DecidableEq, Repr

/-- `dynamic.Configuration`: the full routing configuration artifact. -/
structure Configuration where
  http : HTTPConfiguration
  tcp : TCPConfiguration
  tls : TLSConfiguration
  udp : UDPConfiguration
deriving DecidableEq, Repr

/-- The configuration literal `generateConfiguration` starts from
(provider.go 275-294): every collection allocated and empty. -/
def emptyConfiguration : Configuration :=
  ⟨⟨[], [], [], []⟩, ⟨[], []⟩, ⟨[], []⟩, ⟨[], []⟩⟩

/-- The backend port of a service (provider.go 321-324 and 332-335,
identical in both branches): the `traefik.http.services.port` directive
if present, else `"80"`. -/
def servicePort (config : List (String × String)) : String :=
  match mapLookup "traefik.http.services.port" config with
  | some customPort => customPort
  | none => "80"

/-- Body of the per-IP loop of `generateConfiguration`
(provider.go 318-329): append `http://<address>:<port>` for a non-empty
address, skip an empty one. -/
def addServerForIP (config : List (String × String)) (servers : List Server) (ip : IP) : List Server :=
  if ip.address ≠ "" then
    servers ++ [⟨"http://" ++ ip.address ++ ":" ++ servicePort config⟩]
  else
    servers

/-- The endpoint list built for one service (provider.go 316-339): one
endpoint per non-empty address when the address list is non-empty, else
the single fallback endpoint `http://<name>.<nodeName>:<port>`. -/
def buildServers (nodeName : String) (service : Service) : List Server :=
  if service.ips.length > 0 then
    service.ips.foldl (addServerForIP service.config) []
  else
    [⟨"http://" ++ service.name ++ "." ++ nodeName ++ ":" ++ servicePort service.config⟩]

/-- The identity key of a service (provider.go 307):
`fmt.Sprintf("%s-%d", service.Name, service.ID)`. -/
def serviceKey (service : Service) : String :=
  service.name ++ "-" ++ toString service.id

/-- The router rule of a service (provider.go 347-353): the
`traefik.http.routers.rule` directive verbatim if present, else the
default rule built from the display name. -/
def routerRuleOf (service : Service) : String :=
  match mapLookup "traefik.http.routers.rule" service.config with
  | some customRule => customRule
  | none => "Host(`" ++ service.name ++ "`)"

/-- Body of the per-service loop of `generateConfiguration`
(provider.go 299-364): skip unless `traefik.enable` is exactly `"true"`,
build the endpoint list, and if it is non-empty insert the backend
service and the router under the key `<name>-<id>`. -/
def processService (nodeName : String) (configuration : Configuration) (service : Service) : Configuration :=
  if mapLookup "traefik.enable" service.config = some "true" then
    let serviceName := serviceKey service
    let servers := buildServers nodeName service
    if servers.length > 0 then
      { configuration with
          http := { configuration.http with
            services := mapInsert serviceName ⟨⟨some true, servers⟩⟩ configuration.http.services
            routers := mapInsert serviceName ⟨serviceName, routerRuleOf service, 1⟩ configuration.http.routers } }
    else
      configuration
  else
    configuration

/-- Body of the per-node loop of `generateConfiguration`
(provider.go 297-365). -/
def processNode (configuration : Configuration) (node : String × List Service) : Configuration :=
  node.2.foldl (processService node.1) configuration

/-- `generateConfiguration` (provider.go 274-368).  The snapshot map
`map[string][]internal.Service` is given as an association list in some
iteration order; the `date` argument is embedded as a `Nat` timestamp and,
as in the source, never read. -/
def generateConfiguration (date : Nat) (servicesMap : List (String × List Service)) : Configuration :=
  servicesMap.foldl processNode emptyConfiguration

/-- One entry of the node listing (`internal.NodeStatus`); only the
`Node` name is read by the provider. -/
structure NodeStatus where
  node : String
deriving DecidableEq, Repr

/-- One entry of a VM or container listing (`internal.VM`): the fields
`scanServices` reads. -/
structure VM where
  name : String
  vmid : Nat
  status : String
deriving DecidableEq, Repr

/-- Modelled from the spec: the workload configuration object of the
`internal` package is not under the sources; per the spec the Label
Extractor turns the metadata blob into the directive map, so the model
carries the extracted map directly and `GetTraefikMap` projects it. -/
structure VMConfig where
  traefikMap : List (String × String)
deriving DecidableEq, Repr

/-- Modelled from the spec: `internal.(*VMConfig).GetTraefikMap`, the
directive map extracted from the workload metadata. -/
def VMConfig.GetTraefikMap (c : VMConfig) : List (String × String) :=
  c.traefikMap

/-- Modelled from the spec: `internal.Interfaces` of the `internal`
package is not under the sources; the model carries the resolved address
list directly and `GetIPs` projects it. -/
structure Interfaces where
  ips : List IP
deriving DecidableEq, Repr

/-- Modelled from the spec: `internal.Interfaces.GetIPs`. -/
def Interfaces.GetIPs (i : Interfaces) : List IP :=
  i.ips

/-- The cluster API client (`internal.ProxmoxClient`), an external
collaborator: each call either returns structured data or fails.  One
value of this structure fixes the behaviour of the cluster for a poll
cycle. -/
structure ProxmoxClient where
  getVersion : Except String String
  getNodes : Except String (List NodeStatus)
  getVirtualMachines : String → Except String (List VM)
  getContainers : String → Except String (List VM)
  getVMConfig : String → Nat → Except String VMConfig
  getContainerConfig : String → Nat → Except String VMConfig
  getVMNetworkInterfaces : String → Nat → Except String Interfaces

/-- Modelled from the spec: `internal.NewService`, the Service Model
Builder's pure constructor — identity plus directives, with an empty
address list until addresses are attached. -/
def NewService (id : Nat) (name : String) (config : List (String × String)) : Service :=
  ⟨id, name, config, []⟩

/-- `getIPsOfService` (provider.go 201-207). -/
def getIPsOfService (client : ProxmoxClient) (nodeName : String) (vmID : Nat) : Except String (List IP) :=
  match client.getVMNetworkInterfaces nodeName vmID with
  | .error e => .error ("error getting network interfaces: " ++ e)
  | .ok interfaces => .ok interfaces.GetIPs

/-- Body of the two workload loops of `scanServices` (provider.go
216-238 and 246-269, identical up to the configuration-fetching call
passed as `getConfig`): skip a workload that is not `running`; skip a
running workload whose configuration fetch fails; keep a running workload
whose interface fetch fails, with an empty address list. -/
def scanWorkloadStep (client : ProxmoxClient) (getConfig : String → Nat → Except String VMConfig)
    (nodeName : String) (services : List Service) (vm : VM) : List Service :=
  if vm.status = "running" then
    match getConfig nodeName vm.vmid with
    | .error _ => services
    | .ok config =>
      let service := NewService vm.vmid vm.name config.GetTraefikMap
      let service :=
        match getIPsOfService client nodeName vm.vmid with
        | .ok ips => { service with ips := ips }
        | .error _ => service
      services ++ [service]
  else
    services

/-- `scanServices` (provider.go 209-272): scan the VMs, then the
containers, of one node; a failure of either listing call fails the whole
node scan. -/
def scanServices (client : ProxmoxClient) (nodeName : String) : Except String (List Service) :=
  match client.getVirtualMachines nodeName with
  | .error e => .error ("error scanning VMs on node " ++ nodeName ++ ": " ++ e)
  | .ok vms =>
    let vmServices := vms.foldl (scanWorkloadStep client client.getVMConfig nodeName) []
    match client.getContainers nodeName with
    | .error e => .error ("error scanning containers on node " ++ nodeName ++ ": " ++ e)
    | .ok cts =>
      .ok (cts.foldl (scanWorkloadStep client client.getContainerConfig nodeName) vmServices)

/-- Body of the node loop of `getServiceMap` (provider.go 190-197): a
failed node scan is skipped, a successful one is written into the map. -/
def getServiceMapStep (client : ProxmoxClient) (servicesMap : List (String × List Service))
    (nodeStatus : NodeStatus) : List (String × List Service) :=
  match scanServices client nodeStatus.node with
  | .error _ => servicesMap
  | .ok services => mapInsert nodeStatus.node services servicesMap

/-- `getServiceMap` (provider.go 182-199): a failure of the node listing
fails the whole call. -/
def getServiceMap (client : ProxmoxClient) : Except String (List (String × List Service)) :=
  match client.getNodes with
  | .error e => .error ("error scanning nodes: " ++ e)
  | .ok nodes => .ok (nodes.foldl (getServiceMapStep client) [])

/-- `updateConfiguration` (provider.go 128-137): one poll cycle.  An
`.ok` result is the configuration sent on the outbound channel; an
`.error` result means nothing is sent for this tick. -/
def updateConfiguration (client : ProxmoxClient) (date : Nat) : Except String Configuration :=
  match getServiceMap client with
  | .error e => .error ("error getting service map: " ++ e)
  | .ok servicesMap => .ok (generateConfiguration date servicesMap)

/-- The plugin configuration (`Config`, provider.go 18-25). -/
structure Config where
  pollInterval : String
  apiEndpoint : String
  apiTokenId : String
  apiToken : String
  apiLogging : String
  apiValidateSSL : String
deriving DecidableEq, Repr

/-- `validateConfig` (provider.go 379-401).  The Go nil-pointer guard on
the configuration argument has no counterpart for a Lean value and is
elided; the four field checks are embedded in source order. -/
def validateConfig (config : Config) : Except String Unit :=
  if config.pollInterval = "" then .error "poll interval must be set"
  else if config.apiEndpoint = "" then .error "API endpoint must be set"
  else if config.apiTokenId = "" then .error "API token ID must be set"
  else if config.apiToken = "" then .error "API token must be set"
  else .ok ()

/-- `ParserConfig` (provider.go 148-154). -/
structure ParserConfig where
  apiEndpoint : String
  tokenId : String
  token : String
  logLevel : String
  validateSSL : Bool
deriving DecidableEq, Repr

/-- `newParserConfig` (provider.go 156-167). -/
def newParserConfig (apiEndpoint tokenID token : String) : Except String ParserConfig :=
  if apiEndpoint = "" ∨ tokenID = "" ∨ token = "" then
    .error "missing mandatory values: apiEndpoint, tokenID or token"
  else
    .ok ⟨apiEndpoint, tokenID, token, "info", true⟩

/-- The constructed plugin (`Provider`, provider.go 37-42); the `cancel`
handle is lifecycle plumbing with no model counterpart.  The poll
interval is in nanoseconds, as `time.Duration` is. -/
structure Provider where
  name : String
  pollInterval : Int
  client : ProxmoxClient

/-- `logVersion` (provider.go 173-180): succeeds exactly when the
version call does. -/
def logVersion (client : ProxmoxClient) : Except String Unit :=
  match client.getVersion with
  | .error e => .error e
  | .ok _ => .ok ()

/-- `New` (provider.go 45-82).  `time.ParseDuration` is standard-library
code outside this repository and `internal.NewProxmoxClient` builds the
external API client, so both are passed as collaborator functions:
`parseDuration` returns the parsed duration in nanoseconds, `mkClient`
builds the client from the parser configuration. -/
def New (parseDuration : String → Except String Int) (mkClient : ParserConfig → ProxmoxClient)
    (config : Config) (name : String) : Except String Provider :=
  match validateConfig config with
  | .error e => .error ("invalid configuration: " ++ e)
  | .ok _ =>
    match parseDuration config.pollInterval with
    | .error e => .error ("invalid poll interval: " ++ e)
    | .ok pi =>
      if pi < 5 * 1000000000 then
        .error "poll interval must be at least 5 seconds"
      else
        match newParserConfig config.apiEndpoint config.apiTokenId config.apiToken with
        | .error e => .error ("invalid parser config: " ++ e)
        | .ok pc =>
          let client := mkClient
            { pc with logLevel := config.apiLogging, validateSSL := config.apiValidateSSL = "true" }
          match logVersion client with
          | .error e => .error ("failed to get Proxmox version: " ++ e)
          | .ok _ => .ok ⟨name, pi, client⟩

/-! ## Basic lemmas about the embedded definitions -/

/-- A fresh insert is what a subsequent lookup of the same key finds. -/
theorem mapLookup_mapInsert_self (k : String) (v : α) (m : List (String × α)) :
    mapLookup k (mapInsert k v m) = some v := by
  simp [mapLookup, mapInsert]

/-- `servicePort` is the directive value when present and `"80"`
otherwise. -/
theorem servicePort_eq (config : List (String × String)) :
    servicePort config = (mapLookup "traefik.http.services.port" config).getD "80" := by
  unfold servicePort
  cases mapLookup "traefik.http.services.port" config <;> rfl

/-- Folding the per-IP loop body appends one endpoint per non-empty
address, in address order. -/
theorem foldl_addServerForIP (config : List (String × String)) (l : List IP) :
    ∀ acc : List Server,
      l.foldl (addServerForIP config) acc
        = acc ++ (l.filter (fun ip => decide (ip.address ≠ ""))).map
            (fun ip => ⟨"http://" ++ ip.address ++ ":" ++ servicePort config⟩) := by
  induction l with
  | nil => intro acc; simp
  | cons ip l ih =>
    intro acc
    by_cases h : ip.address = ""
    · simp [addServerForIP, h, ih, List.filter_cons]
    · simp [addServerForIP, h, ih, List.filter_cons]

/-- Normal form of the endpoint list: the fallback endpoint when the
address list is empty, else one endpoint per non-empty address. -/
theorem buildServers_eq (nodeName : String) (s : Service) :
    buildServers nodeName s =
      if s.ips = [] then
        [⟨"http://" ++ s.name ++ "." ++ nodeName ++ ":" ++ servicePort s.config⟩]
      else
        (s.ips.filter (fun ip => decide (ip.address ≠ ""))).map
          (fun ip => ⟨"http://" ++ ip.address ++ ":" ++ servicePort s.config⟩) := by
  unfold buildServers
  cases hs : s.ips with
  | nil => simp
  | cons ip l =>
    rw [foldl_addServerForIP]
    simp

/-- The observable emission condition of `processService`: the service
passes the enablement gate and its endpoint list is non-empty. -/
def serviceEmitted (nodeName : String) (s : Service) : Bool :=
  decide (mapLookup "traefik.enable" s.config = some "true" ∧ (buildServers nodeName s).length > 0)

/-- A service that does not pass the `traefik.enable = "true"` gate
leaves the configuration untouched. -/
theorem processService_not_enabled (nodeName : String) (cfg : Configuration) (s : Service)
    (h : ¬ mapLookup "traefik.enable" s.config = some "true") :
    processService nodeName cfg s = cfg := by
  simp [processService, h]

/-- A service with an empty endpoint list leaves the configuration
untouched. -/
theorem processService_no_servers (nodeName : String) (cfg : Configuration) (s : Service)
    (h : buildServers nodeName s = []) :
    processService nodeName cfg s = cfg := by
  simp [processService, h]

/-- What `processService` prepends to the router collection. -/
theorem processService_routers (nodeName : String) (cfg : Configuration) (s : Service) :
    (processService nodeName cfg s).http.routers =
      (if serviceEmitted nodeName s then
        [(serviceKey s, ⟨serviceKey s, routerRuleOf s, 1⟩)]
      else []) ++ cfg.http.routers := by
  unfold processService serviceEmitted
  by_cases h1 : mapLookup "traefik.enable" s.config = some "true"
  · by_cases h2 : (buildServers nodeName s).length > 0
    · simp [h1, h2, mapInsert]
    · simp [h1, h2]
  · simp [h1]

/-- What `processService` prepends to the backend-service collection. -/
theorem processService_services (nodeName : String) (cfg : Configuration) (s : Service) :
    (processService nodeName cfg s).http.services =
      (if serviceEmitted nodeName s then
        [(serviceKey s, ⟨⟨some true, buildServers nodeName s⟩⟩)]
      else []) ++ cfg.http.services := by
  unfold processService serviceEmitted
  by_cases h1 : mapLookup "traefik.enable" s.config = some "true"
  · by_cases h2 : (buildServers nodeName s).length > 0
    · simp [h1, h2, mapInsert]
    · simp [h1, h2]
  · simp [h1]

/-- `processService` only ever touches the HTTP router and
backend-service collections. -/
theorem processService_frame (nodeName : String) (cfg : Configuration) (s : Service) :
    (processService nodeName cfg s).http.middlewares = cfg.http.middlewares ∧
    (processService nodeName cfg s).http.serversTransports = cfg.http.serversTransports ∧
    (processService nodeName cfg s).tcp = cfg.tcp ∧
    (processService nodeName cfg s).tls = cfg.tls ∧
    (processService nodeName cfg s).udp = cfg.udp := by
  unfold processService
  by_cases h1 : mapLookup "traefik.enable" s.config = some "true"
  · by_cases h2 : (buildServers nodeName s).length > 0
    · simp [h1, h2]
    · simp [h1, h2]
  · simp [h1]

/-- The services of one node that are actually emitted, in order. -/
def emittedOn (node : String × List Service) : List Service :=
  node.2.filter (fun s => serviceEmitted node.1 s)

/-- The router entries one node contributes, in emission order. -/
def routerEntriesOf (node : String × List Service) : List (String × Router) :=
  (emittedOn node).map (fun s => (serviceKey s, ⟨serviceKey s, routerRuleOf s, 1⟩))

/-- The backend-service entries one node contributes, in emission
order. -/
def serviceEntriesOf (node : String × List Service) : List (String × DynService) :=
  (emittedOn node).map (fun s => (serviceKey s, ⟨⟨some true, buildServers node.1 s⟩⟩))

/-- Folding the per-service loop prepends the node's router entries,
reversed because each insert conses in front. -/
theorem foldl_processService_routers (nodeName : String) (ss : List Service) :
    ∀ cfg : Configuration,
      (ss.foldl (processService nodeName) cfg).http.routers
        = (routerEntriesOf (nodeName, ss)).reverse ++ cfg.http.routers := by
  induction ss with
  | nil => intro cfg; simp [routerEntriesOf, emittedOn]
  | cons s ss ih =>
    intro cfg
    rw [List.foldl_cons, ih, processService_routers]
    unfold routerEntriesOf emittedOn
    by_cases h : serviceEmitted nodeName s = true
    · simp [h, List.filter_cons]
    · simp [h, List.filter_cons]

/-- Folding the per-service loop prepends the node's backend-service
entries, reversed because each insert conses in front. -/
theorem foldl_processService_services (nodeName : String) (ss : List Service) :
    ∀ cfg : Configuration,
      (ss.foldl (processService nodeName) cfg).http.services
        = (serviceEntriesOf (nodeName, ss)).reverse ++ cfg.http.services := by
  induction ss with
  | nil => intro cfg; simp [serviceEntriesOf, emittedOn]
  | cons s ss ih =>
    intro cfg
    rw [List.foldl_cons, ih, processService_services]
    unfold serviceEntriesOf emittedOn
    by_cases h : serviceEmitted nodeName s = true
    · simp [h, List.filter_cons]
    · simp [h, List.filter_cons]

/-- Folding the per-service loop touches nothing besides the HTTP router
and backend-service collections. -/
theorem foldl_processService_frame (nodeName : String) (ss : List Service) :
    ∀ cfg : Configuration,
      (ss.foldl (processService nodeName) cfg).http.middlewares = cfg.http.middlewares ∧
      (ss.foldl (processService nodeName) cfg).http.serversTransports = cfg.http.serversTransports ∧
      (ss.foldl (processService nodeName) cfg).tcp = cfg.tcp ∧
      (ss.foldl (processService nodeName) cfg).tls = cfg.tls ∧
      (ss.foldl (processService nodeName) cfg).udp = cfg.udp := by
  induction ss with
  | nil => intro cfg; exact ⟨rfl, rfl, rfl, rfl, rfl⟩
  | cons s ss ih =>
    intro cfg
    rw [List.foldl_cons]
    obtain ⟨h1, h2, h3, h4, h5⟩ := ih (processService nodeName cfg s)
    obtain ⟨g1, g2, g3, g4, g5⟩ := processService_frame nodeName cfg s
    exact ⟨h1.trans g1, h2.trans g2, h3.trans g3, h4.trans g4, h5.trans g5⟩

/-- The router collection of the generated configuration, in normal
form. -/
theorem generateConfiguration_routers (date : Nat) (m : List (String × List Service)) :
    (generateConfiguration date m).http.routers = (m.flatMap routerEntriesOf).reverse := by
  unfold generateConfiguration
  suffices h : ∀ cfg : Configuration,
      (m.foldl processNode cfg).http.routers = (m.flatMap routerEntriesOf).reverse ++ cfg.http.routers by
    simpa [emptyConfiguration] using h emptyConfiguration
  induction m with
  | nil => intro cfg; simp
  | cons nd m ih =>
    intro cfg
    rw [List.foldl_cons, ih]
    show _ ++ (nd.2.foldl (processService nd.1) cfg).http.routers = _
    rw [foldl_processService_routers]
    simp [List.reverse_append]

/-- The backend-service collection of the generated configuration, in
normal form. -/
theorem generateConfiguration_services (date : Nat) (m : List (String × List Service)) :
    (generateConfiguration date m).http.services = (m.flatMap serviceEntriesOf).reverse := by
  unfold generateConfiguration
  suffices h : ∀ cfg : Configuration,
      (m.foldl processNode cfg).http.services = (m.flatMap serviceEntriesOf).reverse ++ cfg.http.services by
    simpa [emptyConfiguration] using h emptyConfiguration
  induction m with
  | nil => intro cfg; simp
  | cons nd m ih =>
    intro cfg
    rw [List.foldl_cons, ih]
    show _ ++ (nd.2.foldl (processService nd.1) cfg).http.services = _
    rw [foldl_processService_services]
    simp [List.reverse_append]

/-- Synthesis never populates any collection besides the HTTP routers
and HTTP backend services. -/
theorem generateConfiguration_frame (date : Nat) (m : List (String × List Service)) :
    (generateConfiguration date m).http.middlewares = [] ∧
    (generateConfiguration date m).http.serversTransports = [] ∧
    (generateConfiguration date m).tcp = ⟨[], []⟩ ∧
    (generateConfiguration date m).tls = ⟨[], []⟩ ∧
    (generateConfiguration date m).udp = ⟨[], []⟩ := by
  unfold generateConfiguration
  suffices h : ∀ cfg : Configuration,
      (m.foldl processNode cfg).http.middlewares = cfg.http.middlewares ∧
      (m.foldl processNode cfg).http.serversTransports = cfg.http.serversTransports ∧
      (m.foldl processNode cfg).tcp = cfg.tcp ∧
      (m.foldl processNode cfg).tls = cfg.tls ∧
      (m.foldl processNode cfg).udp = cfg.udp by
    simpa [emptyConfiguration] using h emptyConfiguration
  induction m with
  | nil => intro cfg; exact ⟨rfl, rfl, rfl, rfl, rfl⟩
  | cons nd m ih =>
    intro cfg
    rw [List.foldl_cons]
    obtain ⟨h1, h2, h3, h4, h5⟩ := ih (processNode cfg nd)
    obtain ⟨g1, g2, g3, g4, g5⟩ := foldl_processService_frame nd.1 nd.2 cfg
    exact ⟨h1.trans g1, h2.trans g2, h3.trans g3, h4.trans g4, h5.trans g5⟩

/-- First-match lookup agrees on permuted association lists whose keys
are pairwise distinct. -/
theorem mapLookup_eq_of_perm {l₁ l₂ : List (String × α)} (p : l₁.Perm l₂)
    (nd : (l₁.map Prod.fst).Nodup) (k : String) :
    mapLookup k l₁ = mapLookup k l₂ := by
  induction p with
  | nil => rfl
  | cons x p ih =>
    simp only [List.map_cons, List.nodup_cons] at nd
    by_cases h : x.1 = k
    · simp [mapLookup, h]
    · simp [mapLookup, h, ih nd.2]
  | swap x y t =>
    simp only [List.map_cons, List.nodup_cons, List.mem_cons] at nd
    have hxy : y.1 ≠ x.1 := fun hc => nd.1 (Or.inl hc)
    by_cases hy : y.1 = k
    · have hx : ¬ x.1 = k := fun hc => hxy (hy.trans hc.symm)
      simp [mapLookup, hy, hx]
    · by_cases hx : x.1 = k
      · simp [mapLookup, hy, hx]
      · simp [mapLookup, hy, hx]
  | trans p1 p2 ih1 ih2 =>
    have nd2 := ((p1.map Prod.fst).nodup_iff).mp nd
    exact (ih1 nd).trans (ih2 nd2)

/-- Dropping the services that fail the enablement gate from a node's
list does not change the fold of the per-service loop. -/
theorem foldl_processService_filter_enabled (nodeName : String) (ss : List Service) :
    ∀ cfg : Configuration,
      (ss.filter (fun s => decide (mapLookup "traefik.enable" s.config = some "true"))).foldl
          (processService nodeName) cfg
        = ss.foldl (processService nodeName) cfg := by
  induction ss with
  | nil => intro cfg; rfl
  | cons s ss ih =>
    intro cfg
    by_cases h : mapLookup "traefik.enable" s.config = some "true"
    · simp [List.filter_cons, h, ih]
    · simp [List.filter_cons, h, ih, processService_not_enabled nodeName cfg s h]

/-! ## The claims -/

/-- Claim C9: for every input snapshot, the synthesized configuration's
TCP routers and services, UDP routers and services, TLS stores and
options, and the HTTP middlewares and serversTransports collections are
present but always empty; only the HTTP routers and HTTP services
collections are ever populated by synthesis. -/
theorem claim_C9 (date : Nat) (m : List (String × List Service)) :
    (generateConfiguration date m).tcp.routers = []
    ∧ (generateConfiguration date m).tcp.services = []
    ∧ (generateConfiguration date m).udp.routers = []
    ∧ (generateConfiguration date m).udp.services = []
    ∧ (generateConfiguration date m).tls.stores = []
    ∧ (generateConfiguration date m).tls.options = []
    ∧ (generateConfiguration date m).http.middlewares = []
    ∧ (generateConfiguration date m).http.serversTransports = [] := by
  obtain ⟨h1, h2, h3, h4, h5⟩ := generateConfiguration_frame date m
  refine ⟨?_, ?_, ?_, ?_, ?_, ?_, h1, h2⟩ <;> simp [h3, h4, h5]

/-- Claim C1: a router and backend-service entry is emitted for a
service only if its directive map binds `traefik.enable` to exactly
`"true"`: the synthesized configuration is unchanged when every service
failing that strict check is dropped from the snapshot, and a snapshot
with no enabled service at all yields empty router and backend-service
collections. -/
theorem claim_C1 (date : Nat) (m : List (String × List Service)) :
    generateConfiguration date m
      = generateConfiguration date
          (m.map (fun node => (node.1,
            node.2.filter (fun s => decide (mapLookup "traefik.enable" s.config = some "true")))))
    ∧ ((∀ node ∈ m, ∀ s ∈ node.2, ¬ mapLookup "traefik.enable" s.config = some "true") →
        (generateConfiguration date m).http.routers = []
        ∧ (generateConfiguration date m).http.services = []) := by
  constructor
  · unfold generateConfiguration
    suffices h : ∀ cfg : Configuration,
        (m.map (fun node => (node.1,
            node.2.filter (fun s => decide (mapLookup "traefik.enable" s.config = some "true"))))).foldl
              processNode cfg
          = m.foldl processNode cfg from (h emptyConfiguration).symm
    induction m with
    | nil => intro cfg; rfl
    | cons nd m ih =>
      intro cfg
      rw [List.map_cons, List.foldl_cons, List.foldl_cons, ih]
      show m.foldl processNode
          ((nd.2.filter (fun s => decide (mapLookup "traefik.enable" s.config = some "true"))).foldl
            (processService nd.1) cfg)
        = m.foldl processNode (nd.2.foldl (processService nd.1) cfg)
      rw [foldl_processService_filter_enabled]
  · intro hdis
    have hnone : ∀ node ∈ m, routerEntriesOf node = [] ∧ serviceEntriesOf node = [] := by
      intro node hn
      have hfil : emittedOn node = [] := by
        unfold emittedOn
        rw [List.filter_eq_nil_iff]
        intro s hs
        unfold serviceEmitted
        simp [hdis node hn s hs]
      unfold routerEntriesOf serviceEntriesOf
      rw [hfil]
      exact ⟨rfl, rfl⟩
    constructor
    · rw [generateConfiguration_routers]
      have : m.flatMap routerEntriesOf = [] := by
        rw [List.flatMap_eq_nil_iff]
        intro node hn
        exact (hnone node hn).1
      rw [this]
      rfl
    · rw [generateConfiguration_services]
      have : m.flatMap serviceEntriesOf = [] := by
        rw [List.flatMap_eq_nil_iff]
        intro node hn
        exact (hnone node hn).2
      rw [this]
      rfl

/-- Witness for claim C1 at a one-node snapshot whose only service lacks
the `traefik.enable` directive. -/
theorem claim_C1_witness :
    (generateConfiguration 0 [("pve1", [⟨1, "app", [("traefik.enable", "yes")], []⟩])]).http.routers = []
    ∧ (generateConfiguration 0 [("pve1", [⟨1, "app", [("traefik.enable", "yes")], []⟩])]).http.services = [] :=
  (claim_C1 0 [("pve1", [⟨1, "app", [("traefik.enable", "yes")], []⟩])]).2 (by decide)

/-- Claim C2: for every enabled service the emitted backend holds one
endpoint `http://<address>:<port>` per non-empty address when the address
list is non-empty (empty-string addresses produce no endpoint), and
exactly the fallback endpoint `http://<name>.<nodeName>:<port>` when the
address list is empty; the port is the `traefik.http.services.port`
directive when present and `"80"` otherwise. -/
theorem claim_C2 (nodeName : String) (cfg : Configuration) (s : Service) :
    buildServers nodeName s =
      (if s.ips = [] then
        [⟨"http://" ++ s.name ++ "." ++ nodeName ++ ":"
            ++ (mapLookup "traefik.http.services.port" s.config).getD "80"⟩]
      else
        (s.ips.filter (fun ip => decide (ip.address ≠ ""))).map
          (fun ip => ⟨"http://" ++ ip.address ++ ":"
            ++ (mapLookup "traefik.http.services.port" s.config).getD "80"⟩))
    ∧ (mapLookup "traefik.enable" s.config = some "true" →
        buildServers nodeName s ≠ [] →
        mapLookup (serviceKey s) ((processService nodeName cfg s).http.services)
          = some ⟨⟨some true, buildServers nodeName s⟩⟩) := by
  constructor
  · rw [buildServers_eq, servicePort_eq]
  · intro hen hne
    have hem : serviceEmitted nodeName s = true := by
      unfold serviceEmitted
      simp [hen, List.length_pos, hne]
    rw [processService_services]
    simp [hem, mapLookup]

/-- Witness for claim C2 at an enabled service with one address and a
port directive. -/
theorem claim_C2_witness :
    mapLookup (serviceKey ⟨100, "web",
        [("traefik.enable", "true"), ("traefik.http.services.port", "8080")], [⟨"10.0.0.5"⟩]⟩)
      ((processService "pve1" emptyConfiguration
        ⟨100, "web",
          [("traefik.enable", "true"), ("traefik.http.services.port", "8080")], [⟨"10.0.0.5"⟩]⟩).http.services)
      = some ⟨⟨some true, buildServers "pve1"
          ⟨100, "web",
            [("traefik.enable", "true"), ("traefik.http.services.port", "8080")], [⟨"10.0.0.5"⟩]⟩⟩⟩ :=
  (claim_C2 "pve1" emptyConfiguration
      ⟨100, "web",
        [("traefik.enable", "true"), ("traefik.http.services.port", "8080")], [⟨"10.0.0.5"⟩]⟩).2
    (by decide) (by decide)

/-- Claim C4: for every enabled and emitted service the router's rule is
the `traefik.http.routers.rule` directive verbatim when present, and
otherwise exactly the default rule built from the display name. -/
theorem claim_C4 (nodeName : String) (cfg : Configuration) (s : Service)
    (hen : mapLookup "traefik.enable" s.config = some "true")
    (hne : buildServers nodeName s ≠ []) :
    (∀ r, mapLookup "traefik.http.routers.rule" s.config = some r →
        mapLookup (serviceKey s) ((processService nodeName cfg s).http.routers)
          = some ⟨serviceKey s, r, 1⟩)
    ∧ (mapLookup "traefik.http.routers.rule" s.config = none →
        mapLookup (serviceKey s) ((processService nodeName cfg s).http.routers)
          = some ⟨serviceKey s, "Host(`" ++ s.name ++ "`)", 1⟩) := by
  have hem : serviceEmitted nodeName s = true := by
    unfold serviceEmitted
    simp [hen, List.length_pos, hne]
  constructor
  · intro r hr
    rw [processService_routers]
    simp [hem, mapLookup, routerRuleOf, hr]
  · intro hr
    rw [processService_routers]
    simp [hem, mapLookup, routerRuleOf, hr]

/-- Witness for claim C4: a service with a custom rule and a service
relying on the default rule. -/
theorem claim_C4_witness :
    mapLookup (serviceKey ⟨7, "api",
        [("traefik.enable", "true"), ("traefik.http.routers.rule", "Host(`api.example.com`)")], []⟩)
      ((processService "pve1" emptyConfiguration
        ⟨7, "api",
          [("traefik.enable", "true"), ("traefik.http.routers.rule", "Host(`api.example.com`)")], []⟩).http.routers)
      = some ⟨serviceKey ⟨7, "api",
          [("traefik.enable", "true"), ("traefik.http.routers.rule", "Host(`api.example.com`)")], []⟩,
        "Host(`api.example.com`)", 1⟩ :=
  (claim_C4 "pve1" emptyConfiguration
      ⟨7, "api",
        [("traefik.enable", "true"), ("traefik.http.routers.rule", "Host(`api.example.com`)")], []⟩
      (by decide) (by decide)).1 "Host(`api.example.com`)" (by decide)

/-- Counterexample to claim C3 as stated: a service that passes the
enablement gate but whose address list is the non-empty list `[""]`
builds zero endpoints — the fallback endpoint only exists for an empty
address list — and is therefore not emitted at all. -/
theorem claim_C3_counterexample :
    mapLookup "traefik.enable" (Service.mk 7 "w" [("traefik.enable", "true")] [⟨""⟩]).config
      = some "true"
    ∧ buildServers "n1" ⟨7, "w", [("traefik.enable", "true")], [⟨""⟩]⟩ = []
    ∧ (generateConfiguration 0 [("n1", [⟨7, "w", [("traefik.enable", "true")], [⟨""⟩]⟩])]).http.routers = []
    ∧ (generateConfiguration 0 [("n1", [⟨7, "w", [("traefik.enable", "true")], [⟨""⟩]⟩])]).http.services = [] := by
  decide

/-- Claim C3 (amended): an enabled service whose address list is empty,
or contains at least one non-empty address, produces at least one
endpoint and is emitted as a router plus backend-service pair under the
key `<name>-<id>`; an enabled service whose address list is non-empty
but all empty strings produces no endpoint and is not emitted; emission
happens if and only if the built endpoint list is non-empty. -/
theorem claim_C3 (nodeName : String) (cfg : Configuration) (s : Service)
    (hen : mapLookup "traefik.enable" s.config = some "true") :
    ((s.ips = [] ∨ ∃ ip ∈ s.ips, ip.address ≠ "") →
        buildServers nodeName s ≠ []
        ∧ (∃ r, mapLookup (serviceKey s) ((processService nodeName cfg s).http.routers) = some r)
        ∧ (∃ sv, mapLookup (serviceKey s) ((processService nodeName cfg s).http.services) = some sv))
    ∧ (buildServers nodeName s ≠ [] →
        (processService nodeName cfg s).http.routers
          = mapInsert (serviceKey s) ⟨serviceKey s, routerRuleOf s, 1⟩ cfg.http.routers
        ∧ (processService nodeName cfg s).http.services
          = mapInsert (serviceKey s) ⟨⟨some true, buildServers nodeName s⟩⟩ cfg.http.services)
    ∧ (buildServers nodeName s = [] → processService nodeName cfg s = cfg) := by
  have hins : buildServers nodeName s ≠ [] →
      (processService nodeName cfg s).http.routers
        = mapInsert (serviceKey s) ⟨serviceKey s, routerRuleOf s, 1⟩ cfg.http.routers
      ∧ (processService nodeName cfg s).http.services
        = mapInsert (serviceKey s) ⟨⟨some true, buildServers nodeName s⟩⟩ cfg.http.services := by
    intro hne
    have hem : serviceEmitted nodeName s = true := by
      unfold serviceEmitted
      simp [hen, List.length_pos, hne]
    rw [processService_routers, processService_services]
    simp [hem, mapInsert]
  refine ⟨?_, hins, processService_no_servers nodeName cfg s⟩
  intro hip
  have hne : buildServers nodeName s ≠ [] := by
    rw [buildServers_eq]
    rcases hip with hnil | ⟨ip, hmem, hip⟩
    · simp [hnil]
    · have hips : s.ips ≠ [] := List.ne_nil_of_mem hmem
      rw [if_neg hips]
      intro hmap
      rw [List.map_eq_nil_iff] at hmap
      have hmem2 : ip ∈ s.ips.filter (fun ip => decide (ip.address ≠ "")) :=
        List.mem_filter.mpr ⟨hmem, by simpa using hip⟩
      rw [hmap] at hmem2
      exact absurd hmem2 (List.not_mem_nil ip)
  obtain ⟨hr, hs⟩ := hins hne
  refine ⟨hne, ?_, ?_⟩
  · exact ⟨⟨serviceKey s, routerRuleOf s, 1⟩, by rw [hr]; exact mapLookup_mapInsert_self ..⟩
  · exact ⟨⟨⟨some true, buildServers nodeName s⟩⟩, by rw [hs]; exact mapLookup_mapInsert_self ..⟩

/-- Witness for the amended claim C3 at an enabled service with no
addresses: the fallback endpoint is built and the pair is emitted. -/
theorem claim_C3_witness :
    buildServers "pve1" ⟨3, "db", [("traefik.enable", "true")], []⟩ ≠ []
    ∧ (∃ r, mapLookup (serviceKey ⟨3, "db", [("traefik.enable", "true")], []⟩)
        ((processService "pve1" emptyConfiguration
          ⟨3, "db", [("traefik.enable", "true")], []⟩).http.routers) = some r)
    ∧ ∃ sv, mapLookup (serviceKey ⟨3, "db", [("traefik.enable", "true")], []⟩)
        ((processService "pve1" emptyConfiguration
          ⟨3, "db", [("traefik.enable", "true")], []⟩).http.services) = some sv :=
  (claim_C3 "pve1" emptyConfiguration ⟨3, "db", [("traefik.enable", "true")], []⟩
    (by decide)).1 (Or.inl rfl)

/-- The cluster client with every workload that is not `running` removed
from its listings; used to state that non-running workloads contribute
nothing. -/
def runningOnly (client : ProxmoxClient) : ProxmoxClient :=
  { client with
    getVirtualMachines := fun n => (client.getVirtualMachines n).map
      (fun vms => vms.filter (fun v => decide (v.status = "running")))
    getContainers := fun n => (client.getContainers n).map
      (fun cts => cts.filter (fun v => decide (v.status = "running"))) }

/-- The workload-loop body skips a workload that is not `running`. -/
theorem scanWorkloadStep_not_running (client : ProxmoxClient)
    (getConfig : String → Nat → Except String VMConfig) (nodeName : String)
    (acc : List Service) (vm : VM) (h : vm.status ≠ "running") :
    scanWorkloadStep client getConfig nodeName acc vm = acc := by
  simp [scanWorkloadStep, h]

/-- Folding the workload loop ignores the workloads that are not
`running`. -/
theorem foldl_scanWorkloadStep_filter (client : ProxmoxClient)
    (getConfig : String → Nat → Except String VMConfig) (nodeName : String) (vms : List VM) :
    ∀ acc : List Service,
      (vms.filter (fun v => decide (v.status = "running"))).foldl
          (scanWorkloadStep client getConfig nodeName) acc
        = vms.foldl (scanWorkloadStep client getConfig nodeName) acc := by
  induction vms with
  | nil => intro acc; rfl
  | cons vm vms ih =>
    intro acc
    by_cases h : vm.status = "running"
    · simp [List.filter_cons, h, ih]
    · simp [List.filter_cons, h, ih, scanWorkloadStep_not_running client getConfig nodeName acc vm h]

/-- Scanning a node through the running-only client is scanning it
through the original client: non-running workloads never contribute. -/
theorem scanServices_runningOnly (client : ProxmoxClient) (n : String) :
    scanServices (runningOnly client) n = scanServices client n := by
  unfold scanServices
  cases hv : client.getVirtualMachines n with
  | error e =>
    have hv' : (runningOnly client).getVirtualMachines n = .error e := by
      show (client.getVirtualMachines n).map _ = _
      rw [hv]
      rfl
    simp only [hv', hv]
  | ok vms =>
    have hv' : (runningOnly client).getVirtualMachines n
        = .ok (vms.filter (fun v => decide (v.status = "running"))) := by
      show (client.getVirtualMachines n).map _ = _
      rw [hv]
      rfl
    cases hc : client.getContainers n with
    | error e =>
      have hc' : (runningOnly client).getContainers n = .error e := by
        show (client.getContainers n).map _ = _
        rw [hc]
        rfl
      simp only [hv', hv, hc', hc]
    | ok cts =>
      have hc' : (runningOnly client).getContainers n
          = .ok (cts.filter (fun v => decide (v.status = "running"))) := by
        show (client.getContainers n).map _ = _
        rw [hc]
        rfl
      simp only [hv', hv, hc', hc]
      have h1 : scanWorkloadStep (runningOnly client) ((runningOnly client).getVMConfig) n
          = scanWorkloadStep client client.getVMConfig n := rfl
      have h2 : scanWorkloadStep (runningOnly client) ((runningOnly client).getContainerConfig) n
          = scanWorkloadStep client client.getContainerConfig n := rfl
      rw [h1, h2, foldl_scanWorkloadStep_filter, foldl_scanWorkloadStep_filter]

/-- Building the service map through the running-only client changes
nothing. -/
theorem getServiceMap_runningOnly (client : ProxmoxClient) :
    getServiceMap (runningOnly client) = getServiceMap client := by
  unfold getServiceMap
  cases hv : client.getNodes with
  | error e =>
    have hv' : (runningOnly client).getNodes = .error e := hv
    simp only [hv', hv]
  | ok nodes =>
    have hv' : (runningOnly client).getNodes = .ok nodes := hv
    simp only [hv', hv]
    have hstep : getServiceMapStep (runningOnly client) = getServiceMapStep client := by
      funext m ns
      unfold getServiceMapStep
      rw [scanServices_runningOnly]
    rw [hstep]

/-- Claim C5: a workload whose lifecycle status is not exactly
`"running"` contributes no discoverable service record to the node scan —
the workload-loop body skips it, and scanning is unchanged when all
non-running workloads are removed from the listings — and consequently
the poll cycle, hence the synthesized configuration, is unchanged as
well. -/
theorem claim_C5 (client : ProxmoxClient) (getConfig : String → Nat → Except String VMConfig)
    (nodeName : String) (acc : List Service) (vm : VM) (date : Nat) :
    (vm.status ≠ "running" → scanWorkloadStep client getConfig nodeName acc vm = acc)
    ∧ (∀ n, scanServices (runningOnly client) n = scanServices client n)
    ∧ updateConfiguration (runningOnly client) date = updateConfiguration client date := by
  refine ⟨scanWorkloadStep_not_running client getConfig nodeName acc vm,
    scanServices_runningOnly client, ?_⟩
  unfold updateConfiguration
  rw [getServiceMap_runningOnly]

/-- Witness for claim C5 at a stopped workload on a concrete client. -/
theorem claim_C5_witness :
    scanWorkloadStep
      ⟨.ok "8.0", .ok [], fun _ => .ok [], fun _ => .ok [],
        fun _ _ => .ok ⟨[]⟩, fun _ _ => .ok ⟨[]⟩, fun _ _ => .ok ⟨[]⟩⟩
      (fun _ _ => .ok ⟨[]⟩) "pve1" [] ⟨"w", 5, "stopped"⟩ = [] :=
  (claim_C5
      ⟨.ok "8.0", .ok [], fun _ => .ok [], fun _ => .ok [],
        fun _ _ => .ok ⟨[]⟩, fun _ _ => .ok ⟨[]⟩, fun _ _ => .ok ⟨[]⟩⟩
      (fun _ _ => .ok ⟨[]⟩) "pve1" [] ⟨"w", 5, "stopped"⟩ 0).1 (by decide)

/-- A concrete client for claim C8: one node `"n1"` with one running VM
whose configuration fetch succeeds but whose network-interface fetch
fails. -/
def c8client : ProxmoxClient :=
  ⟨.ok "8.0", .ok [⟨"n1"⟩],
    fun _ => .ok [⟨"web", 100, "running"⟩],
    fun _ => .ok [],
    fun _ _ => .ok ⟨[("traefik.enable", "true")]⟩,
    fun _ _ => .ok ⟨[]⟩,
    fun _ _ => .error "boom"⟩

/-- Counterexample to claim C8 as stated: when fetching a running
workload's network interfaces fails, the workload is NOT skipped — the
scan still produces its discoverable service, merely with an empty
address list. -/
theorem claim_C8_counterexample :
    c8client.getVMNetworkInterfaces "n1" 100 = .error "boom"
    ∧ scanServices c8client "n1" = .ok [⟨100, "web", [("traefik.enable", "true")], []⟩] :=
  ⟨rfl, rfl⟩

/-- Claim C8 (amended): when fetching a single running workload's
configuration metadata fails, that single workload alone is skipped;
when fetching its network interfaces fails, the workload is still kept,
with an empty address list; in both cases the remaining workloads of the
node are still scanned and the node's scan still succeeds. -/
theorem claim_C8 (client : ProxmoxClient) (getConfig : String → Nat → Except String VMConfig)
    (nodeName : String) (acc : List Service) (vm : VM) (hrun : vm.status = "running") :
    (∀ e, getConfig nodeName vm.vmid = .error e →
        scanWorkloadStep client getConfig nodeName acc vm = acc)
    ∧ (∀ c e, getConfig nodeName vm.vmid = .ok c →
        client.getVMNetworkInterfaces nodeName vm.vmid = .error e →
        scanWorkloadStep client getConfig nodeName acc vm
          = acc ++ [⟨vm.vmid, vm.name, c.GetTraefikMap, []⟩])
    ∧ (∀ vms cts, client.getVirtualMachines nodeName = .ok vms →
        client.getContainers nodeName = .ok cts →
        ∃ l, scanServices client nodeName = .ok l) := by
  refine ⟨?_, ?_, ?_⟩
  · intro e he
    simp [scanWorkloadStep, hrun, he]
  · intro c e hc he
    simp [scanWorkloadStep, getIPsOfService, hrun, hc, he, NewService]
  · intro vms cts hvms hcts
    unfold scanServices
    rw [hvms, hcts]
    exact ⟨_, rfl⟩

/-- Witness for the amended claim C8: on the concrete client the running
VM with failing interface fetch is kept with an empty address list. -/
theorem claim_C8_witness :
    scanWorkloadStep c8client c8client.getVMConfig "n1" [] ⟨"web", 100, "running"⟩
      = [⟨100, "web", [("traefik.enable", "true")], []⟩] := by
  simpa using
    (claim_C8 c8client c8client.getVMConfig "n1" [] ⟨"web", 100, "running"⟩ rfl).2.1
      ⟨[("traefik.enable", "true")]⟩ "boom" rfl rfl

/-- Claim C10: construction rejects any configuration whose poll
interval parses to a duration strictly shorter than 5 seconds
(5 * 10^9 nanoseconds): `New` returns an error and no `Provider` is
created, for any parsed value below the bound. -/
theorem claim_C10 (parseDuration : String → Except String Int)
    (mkClient : ParserConfig → ProxmoxClient) (config : Config) (name : String) (d : Int)
    (hp : parseDuration config.pollInterval = .ok d) (hd : d < 5 * 1000000000) :
    ∃ e, New parseDuration mkClient config name = .error e := by
  unfold New
  cases hv : validateConfig config with
  | error e => exact ⟨_, rfl⟩
  | ok u =>
    simp only [hp]
    rw [if_pos hd]
    exact ⟨_, rfl⟩

/-- Witness for claim C10: the syntactically valid duration string
`"1s"` parses to one second and is rejected. -/
theorem claim_C10_witness :
    ∃ e, New (fun s => if s = "1s" then .ok 1000000000 else .error "unknown unit")
      (fun _ => ⟨.ok "8.0", .ok [], fun _ => .ok [], fun _ => .ok [],
        fun _ _ => .ok ⟨[]⟩, fun _ _ => .ok ⟨[]⟩, fun _ _ => .ok ⟨[]⟩⟩)
      ⟨"1s", "https://pve.example.com", "root@pam!traefik", "secret", "info", "true"⟩
      "proxmox" = .error e :=
  claim_C10 (fun s => if s = "1s" then .ok 1000000000 else .error "unknown unit")
    (fun _ => ⟨.ok "8.0", .ok [], fun _ => .ok [], fun _ => .ok [],
      fun _ _ => .ok ⟨[]⟩, fun _ _ => .ok ⟨[]⟩, fun _ _ => .ok ⟨[]⟩⟩)
    ⟨"1s", "https://pve.example.com", "root@pam!traefik", "secret", "info", "true"⟩
    "proxmox" 1000000000 rfl (by decide)

/-- A lookup succeeds exactly when the key occurs in the association
list. -/
theorem mapLookup_isSome_iff (k : String) (m : List (String × α)) :
    (mapLookup k m).isSome = true ↔ k ∈ m.map Prod.fst := by
  induction m with
  | nil => simp [mapLookup]
  | cons p m ih =>
    by_cases h : p.1 = k
    · simp [mapLookup, h]
    · simp [mapLookup, h, ih, Ne.symm h]

/-- The keys present after folding the node loop of `getServiceMap`:
exactly the names of the listed nodes whose scan succeeded, plus
whatever was in the accumulator. -/
theorem foldl_serviceMap_mem (client : ProxmoxClient) (k : String) (nodes : List NodeStatus) :
    ∀ acc : List (String × List Service),
      k ∈ (nodes.foldl (getServiceMapStep client) acc).map Prod.fst
        ↔ (∃ ns ∈ nodes, ns.node = k ∧ ∃ l, scanServices client ns.node = Except.ok l)
          ∨ k ∈ acc.map Prod.fst := by
  induction nodes with
  | nil => intro acc; simp
  | cons ns nodes ih =>
    intro acc
    rw [List.foldl_cons, ih]
    cases hscan : scanServices client ns.node with
    | error e =>
      have hstep : getServiceMapStep client acc ns = acc := by
        unfold getServiceMapStep
        rw [hscan]
      rw [hstep]
      constructor
      · rintro (⟨ns', hmem, hk, l, hok⟩ | hacc)
        · exact Or.inl ⟨ns', List.mem_cons_of_mem ns hmem, hk, l, hok⟩
        · exact Or.inr hacc
      · rintro (⟨ns', hmem, hk, l, hok⟩ | hacc)
        · rcases List.mem_cons.mp hmem with heq | hmem'
          · rw [heq, hscan] at hok
            cases hok
          · exact Or.inl ⟨ns', hmem', hk, l, hok⟩
        · exact Or.inr hacc
    | ok services =>
      have hstep : getServiceMapStep client acc ns = (ns.node, services) :: acc := by
        unfold getServiceMapStep
        rw [hscan]
        rfl
      rw [hstep]
      simp only [List.map_cons, List.mem_cons]
      constructor
      · rintro (⟨ns', hmem, hk, l, hok⟩ | heq | hacc)
        · exact Or.inl ⟨ns', Or.inr hmem, hk, l, hok⟩
        · exact Or.inl ⟨ns, Or.inl rfl, heq.symm, services, hscan⟩
        · exact Or.inr hacc
      · rintro (⟨ns', hmem, hk, l, hok⟩ | hacc)
        · rcases hmem with heq | hmem'
          · exact Or.inr (Or.inl (by rw [← hk, heq]))
          · exact Or.inl ⟨ns', hmem', hk, l, hok⟩
        · exact Or.inr (Or.inr hacc)

/-- Claim C7: if the top-level node listing fails, the poll cycle is
aborted with an error and nothing is published for that tick; if only
some per-node scans fail, the cycle still publishes one complete
configuration, built from a service map whose keys are exactly the
listed nodes whose scan succeeded. -/
theorem claim_C7 (client : ProxmoxClient) (date : Nat) :
    (∀ e, client.getNodes = .error e → ∃ e', updateConfiguration client date = .error e')
    ∧ (∀ nodes, client.getNodes = .ok nodes →
        updateConfiguration client date
          = .ok (generateConfiguration date (nodes.foldl (getServiceMapStep client) []))
        ∧ ∀ k, k ∈ (nodes.foldl (getServiceMapStep client) []).map Prod.fst
            ↔ ∃ ns ∈ nodes, ns.node = k ∧ ∃ l, scanServices client ns.node = Except.ok l) := by
  constructor
  · intro e he
    unfold updateConfiguration getServiceMap
    simp only [he]
    exact ⟨_, rfl⟩
  · intro nodes hn
    constructor
    · unfold updateConfiguration getServiceMap
      simp only [hn]
    · intro k
      rw [foldl_serviceMap_mem]
      simp

/-- Witness for claim C7: a client whose node listing fails aborts the
cycle. -/
theorem claim_C7_witness :
    ∃ e', updateConfiguration
      ⟨.ok "8.0", .error "connection refused", fun _ => .ok [], fun _ => .ok [],
        fun _ _ => .ok ⟨[]⟩, fun _ _ => .ok ⟨[]⟩, fun _ _ => .ok ⟨[]⟩⟩ 0 = .error e' :=
  (claim_C7
      ⟨.ok "8.0", .error "connection refused", fun _ => .ok [], fun _ => .ok [],
        fun _ _ => .ok ⟨[]⟩, fun _ _ => .ok ⟨[]⟩, fun _ _ => .ok ⟨[]⟩⟩ 0).1
    "connection refused" rfl

/-- The backend-service entries carry the same keys as the router
entries of a node. -/
theorem serviceEntries_keys (node : String × List Service) :
    (serviceEntriesOf node).map Prod.fst = (routerEntriesOf node).map Prod.fst := by
  unfold serviceEntriesOf routerEntriesOf
  simp [List.map_map]

/-- Across the whole snapshot, backend-service keys equal router keys. -/
theorem flatMap_serviceEntries_keys (m : List (String × List Service)) :
    (m.flatMap serviceEntriesOf).map Prod.fst = (m.flatMap routerEntriesOf).map Prod.fst := by
  induction m with
  | nil => rfl
  | cons nd m ih => simp [List.flatMap_cons, ih, serviceEntries_keys]

/-- The first snapshot ordering of the counterexample to claim C6: two
distinct nodes each carrying a service whose synthesized key is the same
`"x-1"` but whose rule directives differ. -/
def c6m1 : List (String × List Service) :=
  [("a", [⟨1, "x", [("traefik.enable", "true"), ("traefik.http.routers.rule", "RA")], [⟨"10.0.0.1"⟩]⟩]),
   ("b", [⟨1, "x", [("traefik.enable", "true"), ("traefik.http.routers.rule", "RB")], [⟨"10.0.0.2"⟩]⟩])]

/-- The second snapshot ordering of the counterexample to claim C6: the
same node-to-service-list contents as `c6m1`, iterated in the other
order. -/
def c6m2 : List (String × List Service) :=
  [("b", [⟨1, "x", [("traefik.enable", "true"), ("traefik.http.routers.rule", "RB")], [⟨"10.0.0.2"⟩]⟩]),
   ("a", [⟨1, "x", [("traefik.enable", "true"), ("traefik.http.routers.rule", "RA")], [⟨"10.0.0.1"⟩]⟩])]

/-- Counterexample to claim C6 as stated: two snapshots with equal
node-to-service-list contents (a permutation with distinct node names),
iterated in different orders, yield different values under the router
key `"x-1"` — because two workloads on different nodes collide on the
synthesized key and last write wins. -/
theorem claim_C6_counterexample :
    c6m1.Perm c6m2
    ∧ (c6m1.map Prod.fst).Nodup
    ∧ mapLookup "x-1" ((generateConfiguration 0 c6m1).http.routers)
        ≠ mapLookup "x-1" ((generateConfiguration 0 c6m2).http.routers) := by
  refine ⟨by decide, by decide, by decide⟩

/-- Claim C6 (amended): synthesis is deterministic for snapshots with
equal node-to-service-list contents — regardless of the timestamp
argument and of map iteration order — provided the emitted service keys
`<name>-<id>` are pairwise distinct across the snapshot (as guaranteed
when workload IDs are cluster-unique): the resulting configurations have
identical key sets and identical values per key in every section. -/
theorem claim_C6 (d1 d2 : Nat) (m1 m2 : List (String × List Service))
    (hperm : m1.Perm m2)
    (hkeys : ((m1.flatMap routerEntriesOf).map Prod.fst).Nodup) :
    (∀ k, mapLookup k ((generateConfiguration d1 m1).http.routers)
        = mapLookup k ((generateConfiguration d2 m2).http.routers))
    ∧ (∀ k, mapLookup k ((generateConfiguration d1 m1).http.services)
        = mapLookup k ((generateConfiguration d2 m2).http.services))
    ∧ (generateConfiguration d1 m1).http.middlewares = (generateConfiguration d2 m2).http.middlewares
    ∧ (generateConfiguration d1 m1).http.serversTransports
        = (generateConfiguration d2 m2).http.serversTransports
    ∧ (generateConfiguration d1 m1).tcp = (generateConfiguration d2 m2).tcp
    ∧ (generateConfiguration d1 m1).tls = (generateConfiguration d2 m2).tls
    ∧ (generateConfiguration d1 m1).udp = (generateConfiguration d2 m2).udp := by
  obtain ⟨a1, a2, a3, a4, a5⟩ := generateConfiguration_frame d1 m1
  obtain ⟨b1, b2, b3, b4, b5⟩ := generateConfiguration_frame d2 m2
  have hR : (m1.flatMap routerEntriesOf).Perm (m2.flatMap routerEntriesOf) :=
    hperm.flatMap_right _
  have hS : (m1.flatMap serviceEntriesOf).Perm (m2.flatMap serviceEntriesOf) :=
    hperm.flatMap_right _
  refine ⟨?_, ?_, a1.trans b1.symm, a2.trans b2.symm, a3.trans b3.symm,
    a4.trans b4.symm, a5.trans b5.symm⟩
  · intro k
    rw [generateConfiguration_routers, generateConfiguration_routers]
    apply mapLookup_eq_of_perm
    · exact ((m1.flatMap routerEntriesOf).reverse_perm).trans
        (hR.trans ((m2.flatMap routerEntriesOf).reverse_perm).symm)
    · rw [List.map_reverse]
      exact List.nodup_reverse.mpr hkeys
  · intro k
    rw [generateConfiguration_services, generateConfiguration_services]
    apply mapLookup_eq_of_perm
    · exact ((m1.flatMap serviceEntriesOf).reverse_perm).trans
        (hS.trans ((m2.flatMap serviceEntriesOf).reverse_perm).symm)
    · rw [List.map_reverse]
      apply List.nodup_reverse.mpr
      rw [flatMap_serviceEntries_keys]
      exact hkeys

/-- A two-node snapshot with distinct emitted keys, for the claim C6
witness. -/
def c6w1 : List (String × List Service) :=
  [("a", [⟨1, "x", [("traefik.enable", "true")], [⟨"10.0.0.1"⟩]⟩]),
   ("b", [⟨2, "y", [("traefik.enable", "true")], [⟨"10.0.0.2"⟩]⟩])]

/-- The same snapshot contents as `c6w1` in the other iteration order. -/
def c6w2 : List (String × List Service) :=
  [("b", [⟨2, "y", [("traefik.enable", "true")], [⟨"10.0.0.2"⟩]⟩]),
   ("a", [⟨1, "x", [("traefik.enable", "true")], [⟨"10.0.0.1"⟩]⟩])]

/-- Witness for the amended claim C6 at two orderings of the same
snapshot and two different timestamps. -/
theorem claim_C6_witness :
    mapLookup "x-1" ((generateConfiguration 0 c6w1).http.routers)
      = mapLookup "x-1" ((generateConfiguration 1 c6w2).http.routers) :=
  (claim_C6 0 1 c6w1 c6w2 (by decide) (by decide)).1 "x-1"

end Provider
